import Mathlib

/-!
Verification of the sfWeldVision camera-presence service.

Shallow embedding of the core of the repository:
  - the presence state machine (src/testing/sfvis_develop.py,
    handle_status_transitions; src/starting_package/sfvis.py, check_status),
  - the aggregation scheduler / heartbeat debounce (sfvis_develop.py main,
    regular_post_if_needed; sfvis.py main, regular_post),
  - the rolling-retention logic (sfvis.py delete_function; sfvis_develop.py
    publish_event),
  - the bounded DB queue and single writer worker (sfvis_develop.py DBWriter),
  - identifier validation for table names (sfvis_develop.py quote_ident),
  - the station mapping (sfvis.py get_workstation; sfvis_develop.py
    workstation_for).

Conventions of the embedding:
  - Wall-clock time is modelled in integer milliseconds (Nat); elapsed loop
    time in whole seconds (Nat), matching the int() truncation in the source.
  - A dwell duration (the Period_Status_Last column) is modelled as
    Option Nat: none for rows that omit the column, some d for a formatted
    duration of d time units.  The HH:MM:SS string formatting of fmt_elapsed
    is a presentation detail and is not modelled.
  - Machine integers do not overflow here: every counter in the source is an
    unbounded Python int, so Nat is the faithful type.
-/

namespace SfWeldVision

/-- Workstation status, the two values of status_from_people
(sfvis_develop.py line 147) and get_workstation_status (sfvis.py). -/
inductive Status where
  | Vacant : Status
  | Occupied : Status
deriving DecidableEq, Repr

open Status

/-- sfvis_develop.py, status_from_people: Occupied if the people count is
nonzero, else Vacant (identical to get_workstation_status in sfvis.py). -/
def status_from_people (n : Nat) : Status :=
  if n ≠ 0 then Occupied else Vacant

/-- The mutable per-camera state of the Camera class (sfvis_develop.py
lines 96-124): presence bookkeeping, the 60-second window counters, and the
scheduler debounce fields pause / checkpoint.  Fields that only serve the
video pipeline (cap, frame, cuda_img, detections) are not part of the core
and are omitted. -/
structure Camera where
  previous_status : Status
  status : Status
  people_count : Nat
  /-- time_started: wall-clock ms at the Vacant to Occupied edge. -/
  time_started : Option Nat
  presence_total : Nat
  presence_60 : Nat
  presence_rate : Nat
  /-- Scheduler debounce flag (sfvis.py sets it in regular_post). -/
  pause : Bool
  /-- Wall-clock ms of the last heartbeat, for the 1-second release. -/
  checkpoint : Option Nat
deriving DecidableEq, Repr

/-- The fresh camera state built in Camera.__init__ (sfvis_develop.py) and in
the Camera(...) call of sfvis.py main (line 370). -/
def Camera.init : Camera :=
  { previous_status := Vacant
    status := Vacant
    people_count := 0
    time_started := none
    presence_total := 0
    presence_60 := 0
    presence_rate := 0
    pause := false
    checkpoint := none }

/-- One row handed to publish_event (sfvis_develop.py lines 318-328): the
values tuple of the INSERT.  station / sfvis identity and the constant
Frame_Rate column are carried unchanged and do not affect the dynamics. -/
structure Event where
  timestamp : Nat
  old_status : Status
  /-- Period_Status_Last: present on Occupied to Vacant transitions only. -/
  time_spent : Option Nat
  new_status : Status
  people_count : Nat
  presence_total : Nat
  presence_rate : Nat
deriving DecidableEq, Repr

/-- sfvis_develop.py, fmt_elapsed composed with the subtraction at line 354:
the dwell value published on an Occupied to Vacant edge, now - time_started,
with the defensive 0 when time_started is unexpectedly unset (line 356). -/
def dwell_value (time_started : Option Nat) (now : Nat) : Nat :=
  match time_started with
  | some t => now - t
  | none => 0

/-- sfvis_develop.py, handle_status_transitions (lines 342-360), with the
publish_event call materialised as the returned Option Event.  now is the
wall clock read by time.time() inside the function.
  - equal statuses: return immediately, no event;
  - Vacant to Occupied: record time_started, publish with time_spent = None,
    then set previous_status := Occupied;
  - Occupied to Vacant: increment presence_rate first, publish with the
    formatted dwell, then reset previous_status, time_started. -/
def handle_status_transitions (cam : Camera) (now : Nat) :
    Camera × Option Event :=
  if cam.status = cam.previous_status then
    (cam, none)
  else if cam.status = Occupied ∧ cam.previous_status = Vacant then
    let ev : Event :=
      { timestamp := now
        old_status := cam.previous_status
        time_spent := none
        new_status := cam.status
        people_count := cam.people_count
        presence_total := cam.presence_total
        presence_rate := cam.presence_rate }
    ({ cam with
        time_started := some now
        previous_status := Occupied },
      some ev)
  else
    let rate := cam.presence_rate + 1
    let spent := dwell_value cam.time_started now
    let ev : Event :=
      { timestamp := now
        old_status := cam.previous_status
        time_spent := some spent
        new_status := cam.status
        people_count := cam.people_count
        presence_total := cam.presence_total
        presence_rate := rate }
    ({ cam with
        presence_rate := rate
        previous_status := Vacant
        time_started := none },
      some ev)

/-- One acquisition-loop evaluation of a camera (sfvis_develop.py main,
lines 467-471): store the detection result, derive the status, then run
handle_status_transitions. -/
def observe (cam : Camera) (peopleCount : Nat) (now : Nat) :
    Camera × Option Event :=
  let cam := { cam with
                people_count := peopleCount
                status := status_from_people peopleCount }
  handle_status_transitions cam now

/-- Feed a sequence of (peopleCount, now) observations through one camera,
collecting every published transition event in order. -/
def observe_run (cam : Camera) : List (Nat × Nat) → Camera × List Event
  | [] => (cam, [])
  | (pc, now) :: rest =>
    let (cam1, ev) := observe cam pc now
    let (cam2, evs) := observe_run cam1 rest
    (cam2, ev.elim evs (fun e => e :: evs))

/-- Number of Vacant/Occupied edges in a people-count sequence, starting from
a given previous status: an observation is an edge when its derived status
differs from the running previous status. -/
def edge_count (prev : Status) : List Nat → Nat
  | [] => 0
  | pc :: rest =>
    let s := status_from_people pc
    (if s = prev then 0 else 1) + edge_count s rest

/-- The heartbeat row built by the publish_event call inside
regular_post_if_needed (sfvis_develop.py line 369): time_spent = None,
presence_rate column = presence_60, presence_total column = presence_total
(sfvis.py regular_post line 349 passes the same values to publish_to_mysql). -/
def heartbeat_event (cam : Camera) (nowMs : Nat) : Event :=
  { timestamp := nowMs
    old_status := cam.previous_status
    time_spent := none
    new_status := cam.status
    people_count := cam.people_count
    presence_total := cam.presence_total
    presence_rate := cam.presence_60 }

/-- sfvis_develop.py, regular_post_if_needed (lines 363-369): at a 60-second
boundary fold presence_rate into presence_total, snapshot it into
presence_60 and reset it; then always publish a heartbeat row carrying the
snapshot and the running total. -/
def regular_post_if_needed (cam : Camera) (nowMs elapsed : Nat) :
    Camera × Event :=
  let cam :=
    if elapsed % 60 = 0 then
      { cam with
          presence_total := cam.presence_total + cam.presence_rate
          presence_60 := cam.presence_rate
          presence_rate := 0 }
    else cam
  (cam, heartbeat_event cam nowMs)

/-- sfvis.py, regular_post (lines 343-350): the same rollup and heartbeat,
followed by camera.pause = True (the line the refactor in sfvis_develop.py
dropped). -/
def regular_post (cam : Camera) (nowMs check_time : Nat) : Camera × Event :=
  let (cam, ev) := regular_post_if_needed cam nowMs check_time
  ({ cam with pause := true }, ev)

/-- The per-camera periodic block of sfvis_develop.py main (lines 475-483):
if not paused and elapsed % 20 == 0, record the checkpoint and run
regular_post_if_needed; afterwards, if at least one second has passed since
the checkpoint, clear pause and the checkpoint.  nowMs is the wall clock in
milliseconds (time.perf_counter()); elapsed the whole seconds since start. -/
def develop_periodic_tick (cam : Camera) (nowMs elapsed : Nat) :
    Camera × Option Event :=
  let (cam, ev) :=
    if ¬cam.pause ∧ elapsed % 20 = 0 then
      let cam := { cam with checkpoint := some nowMs }
      let (cam, e) := regular_post_if_needed cam nowMs elapsed
      (cam, some e)
    else (cam, none)
  let cam :=
    match cam.checkpoint with
    | some c =>
      if nowMs - c ≥ 1000 then { cam with pause := false, checkpoint := none }
      else cam
    | none => cam
  (cam, ev)

/-- The per-camera periodic block of sfvis.py main (lines 407-416): identical
shape, but the heartbeat goes through regular_post, which sets pause = True.
The release test there compares the string f-format of the elapsed seconds
with "1.0"; for the sub-10-second, tick-granularity times relevant here that
string comparison agrees with the numeric test nowMs - c >= 1000 used in
this model (the .1f rounding can release up to 50 ms early, which cannot
change any integer-second trace). -/
def sfvis_periodic_tick (cam : Camera) (nowMs check_time : Nat) :
    Camera × Option Event :=
  let (cam, ev) :=
    if ¬cam.pause ∧ check_time % 20 = 0 then
      let cam := { cam with checkpoint := some nowMs }
      let (cam, e) := regular_post cam nowMs check_time
      (cam, some e)
    else (cam, none)
  let cam :=
    match cam.checkpoint with
    | some c =>
      if nowMs - c ≥ 1000 then { cam with pause := false, checkpoint := none }
      else cam
    | none => cam
  (cam, ev)

/-- Run a periodic tick function over a trace of (nowMs, elapsed) pairs,
collecting (elapsed, event) for every heartbeat published. -/
def sched_run (tick : Camera → Nat → Nat → Camera × Option Event)
    (cam : Camera) : List (Nat × Nat) → Camera × List (Nat × Event)
  | [] => (cam, [])
  | (nowMs, elapsed) :: rest =>
    let (cam1, ev) := tick cam nowMs elapsed
    let (cam2, evs) := sched_run tick cam1 rest
    (cam2, ev.elim evs (fun e => (elapsed, e) :: evs))

/-- The elapsed seconds at which a scheduler run published heartbeats. -/
def heartbeat_seconds (tick : Camera → Nat → Nat → Camera × Option Event)
    (cam : Camera) (ticks : List (Nat × Nat)) : List Nat :=
  (sched_run tick cam ticks).2.map Prod.fst

/-- The (nowMs, elapsed) trace of a loop running at exactly one iteration per
second for n seconds: ticks at seconds 1, 2, ..., n. -/
def one_tick_per_second (n : Nat) : List (Nat × Nat) :=
  (List.range n).map (fun i => ((i + 1) * 1000, i + 1))

/-- The combined per-camera mutation of one acquisition-loop iteration:
either a state-machine observation (handle_status_transitions) or a
scheduler tick (the periodic block calling regular_post_if_needed). -/
inductive Op where
  | observation (peopleCount : Nat) (now : Nat) : Op
  | tick (nowMs : Nat) (elapsed : Nat) : Op

/-- Apply one operation to the camera state (sfvis_develop.py main loop). -/
def apply_op (cam : Camera) : Op → Camera
  | .observation pc now => (observe cam pc now).1
  | .tick nowMs elapsed => (develop_periodic_tick cam nowMs elapsed).1

/-!
Rolling retention.  A per-station table is modelled as the list of its row
timestamps in insertion order.
-/

/-- sfvis.py, delete_function (lines 234-264): count the rows; only when the
count exceeds 10, delete the rows whose Timestamp equals the oldest one (the
DELETE has the form WHERE Timestamp = (SELECT ... ORDER BY Timestamp ASC
LIMIT 1), which removes every row tied for the oldest timestamp; with
distinct timestamps that is the single oldest row). -/
def delete_function (rows : List Nat) : List Nat :=
  if rows.length > 10 then
    match rows.min? with
    | some m => rows.filter (fun t => t ≠ m)
    | none => rows
  else rows

/-- One sequential insert into a per-station table in sfvis.py: the row is
inserted and then delete_function enforces retention (publish_to_mysql
lines 301-308). -/
def sfvis_insert_retain (rows : List Nat) (t : Nat) : List Nat :=
  delete_function (rows ++ [t])

/-- One sequential insert into a per-station table in sfvis_develop.py,
publish_event (lines 333-339): the insert is followed by an enqueued
COUNT(*) whose result nobody reads, and then unconditionally by
DELETE ... ORDER BY Timestamp ASC LIMIT 1, which removes one oldest row
whatever the count is. -/
def develop_insert_retain (rows : List Nat) (t : Nat) : List Nat :=
  let rows := rows ++ [t]
  match rows.min? with
  | some m => rows.erase m
  | none => rows

/-!
The bounded queue of DBWriter and its single worker.
-/

/-- DBWriter.enqueue (sfvis_develop.py lines 229-233): put_nowait against a
queue of the given capacity; when the queue is full the request is dropped
and the warning counted.  The state is (queued items, dropped count). -/
def enqueue {α : Type} (cap : Nat) (st : List α × Nat) (x : α) :
    List α × Nat :=
  if st.1.length < cap then (st.1 ++ [x], st.2) else (st.1, st.2 + 1)

/-- Enqueue a burst of requests in order (the producer side of the claim
about 1001 requests against capacity 1000). -/
def enqueue_all {α : Type} (cap : Nat) (st : List α × Nat) (xs : List α) :
    List α × Nat :=
  xs.foldl (enqueue cap) st

/-- One item dequeued by DBWriter._worker: the shutdown sentinel
("__STOP__", ()) or a request, tagged with whether the store round-trip for
it raises a mysql Error. -/
inductive WItem (α : Type) where
  | stop : WItem α
  | req (payload : α) (fails : Bool) : WItem α

/-- Whether a dequeued item is the shutdown sentinel. -/
def WItem.isStop {α : Type} : WItem α → Bool
  | .stop => true
  | .req _ _ => false

/-- The body of one _worker iteration for a real request (sfvis_develop.py
lines 245-253), given the current connection state: _ensure lazily
(re)connects, then the write executes and commits; on a store Error the
error is logged, _close discards the connection and the loop continues.
Returns (connection after, committed write if any). -/
def db_worker_step {α : Type} (conn : Bool) (p : α) (fails : Bool) :
    Bool × Option α :=
  let conn := conn || true
  if fails then (false, none) else (conn, some p)

/-- DBWriter._worker (sfvis_develop.py lines 240-253) over a dequeue trace:
stops at the sentinel, otherwise processes every request in FIFO order.
Returns (committed writes in order, number of requests processed). -/
def db_worker {α : Type} (conn : Bool) : List (WItem α) → List α × Nat
  | [] => ([], 0)
  | .stop :: _ => ([], 0)
  | .req p f :: rest =>
    let (conn2, w) := db_worker_step conn p f
    let (ws, n) := db_worker conn2 rest
    (w.elim ws (fun x => x :: ws), n + 1)

/-- The payloads of the non-failing requests before the sentinel: what a
fault-free reading of the dequeue trace says must reach the store. -/
def committed {α : Type} : List (WItem α) → List α
  | [] => []
  | .stop :: _ => []
  | .req p f :: rest => if f then committed rest else p :: committed rest

/-!
Identifier validation and the enqueue behaviour of publish_event.
-/

/-- A character of the class [A-Za-z0-9_] of the regular expression in
quote_ident (sfvis_develop.py line 88). -/
def is_word_char (c : Char) : Bool :=
  decide ((65 ≤ c.toNat ∧ c.toNat ≤ 90) ∨ (97 ≤ c.toNat ∧ c.toNat ≤ 122) ∨
    (48 ≤ c.toNat ∧ c.toNat ≤ 57) ∨ c.toNat = 95)

/-- re.fullmatch of [A-Za-z0-9_]+ : nonempty and every character in the
class. -/
def valid_ident (s : String) : Bool :=
  !s.data.isEmpty && s.data.all is_word_char

/-- sfvis_develop.py, quote_ident (lines 86-90): validate, then wrap the
identifier in backquotes; an identifier outside the pattern raises
ValueError (the InvalidIdentifier failure), carrying the offending name. -/
def quote_ident (s : String) : Except String String :=
  if valid_ident s then Except.ok ("\x60" ++ s ++ "\x60") else Except.error s

/-- A request handed to DBWriter.enqueue by publish_event: an INSERT of the
event row into a table, or the retention pair on the per-station table. -/
inductive Request where
  | insert (table : String) (row : Event) : Request
  | countRows (table : String) : Request
  | deleteOldest (table : String) : Request
deriving DecidableEq, Repr

/-- sfvis_develop.py, publish_event (lines 318-339), as its sequence of
enqueue effects: first the INSERT into the per-host table sfvis{hostId},
then the INSERT into the per-station table sfvis_cam{stationId}, then the
COUNT and the DELETE on the per-station table.  Each table name passes
through quote_ident before being interpolated into the statement; the first
invalid identifier raises, aborting the function there, but requests already
enqueued stay in the queue.  Returns (requests enqueued in order, the
invalid identifier when the call failed). -/
def publish_event_requests (hostId stationId : String) (row : Event) :
    List Request × Option String :=
  match quote_ident ("sfvis" ++ hostId) with
  | Except.error e => ([], some e)
  | Except.ok hostTbl =>
    match quote_ident ("sfvis_cam" ++ stationId) with
    | Except.error e => ([Request.insert hostTbl row], some e)
    | Except.ok camTbl =>
      ([Request.insert hostTbl row, Request.insert camTbl row,
        Request.countRows camTbl, Request.deleteOldest camTbl], none)

/-!
Station mapping.
-/

/-- sfvis.py, get_workstation (lines 148-153): the branches assign the
result only for camera_place 1 and 2; any other value reaches the return
with the local unbound (UnboundLocalError), modelled as none.  sfvis holds
the integer already parsed from the numeric hostname id. -/
def get_workstation (sfvis : Int) (camera_place : Int) : Option Int :=
  if camera_place = 1 then some (sfvis * 2 - 1)
  else if camera_place = 2 then some (sfvis * 2)
  else none

/-- sfvis_develop.py, workstation_for (lines 141-143): the conditional
expression is total, sending camera_place 1 to 2*sfvis - 1 and every other
value to 2*sfvis. -/
def workstation_for (sfvis : Int) (camera_place : Int) : Int :=
  if camera_place = 1 then sfvis * 2 - 1 else sfvis * 2

/-!
Theorems.
-/

/-- After an observation the stored previous_status always equals the status
derived from the observed people count. -/
theorem observe_prev_eq (cam : Camera) (pc now : Nat) :
    ((observe cam pc now).1).previous_status = status_from_people pc := by
  unfold observe handle_status_transitions
  cases h : status_from_people pc <;> cases hp : cam.previous_status <;>
    simp [h, hp]

/-- An observation publishes no event exactly when the derived status equals
the stored previous status. -/
theorem observe_none_iff (cam : Camera) (pc now : Nat) :
    (observe cam pc now).2 = none ↔
      status_from_people pc = cam.previous_status := by
  unfold observe handle_status_transitions
  cases h : status_from_people pc <;> cases hp : cam.previous_status <;>
    simp [h, hp]

/-- An observation leaves presence_total untouched. -/
theorem observe_total_eq (cam : Camera) (pc now : Nat) :
    ((observe cam pc now).1).presence_total = cam.presence_total := by
  unfold observe handle_status_transitions
  cases h : status_from_people pc <;> cases hp : cam.previous_status <;>
    simp [h, hp]

/-- Over a run, the number of published transition events equals the number
of status edges of the input sequence. -/
theorem observe_run_length (obs : List (Nat × Nat)) : ∀ (cam : Camera),
    ((observe_run cam obs).2).length =
      edge_count cam.previous_status (obs.map Prod.fst) := by
  induction obs with
  | nil => intro cam; rfl
  | cons hd tl ih =>
    intro cam
    obtain ⟨pc, now⟩ := hd
    have hprev := observe_prev_eq cam pc now
    have hiff := observe_none_iff cam pc now
    simp only [observe_run, List.map_cons, edge_count]
    rcases hobs : observe cam pc now with ⟨cam1, ev⟩
    rw [hobs] at hprev hiff
    cases ev with
    | none =>
      have hst : status_from_people pc = cam.previous_status := hiff.mp rfl
      simp only [Option.elim]
      rw [ih cam1, hprev, hst, if_pos rfl, Nat.zero_add]
    | some e =>
      have hst : ¬ status_from_people pc = cam.previous_status := by
        intro h
        exact Option.noConfusion (hiff.mpr h)
      simp only [Option.elim, List.length_cons]
      rw [ih cam1, hprev, if_neg hst, Nat.add_comm 1]

/-- Claim C1: for every sequence of peopleCount observations fed to one
presence state machine, exactly one transition event is published per
Vacant/Occupied status edge, with the Vacant to Occupied event carrying no
dwell duration and the Occupied to Vacant event carrying one; an observation
whose derived status equals previousStatus publishes nothing, and no
observation ever publishes two events (the per-observation output is a
single Option Event, and the run publishes exactly edge_count events). -/
theorem presence_machine_one_event_per_edge (cam : Camera) (pc now : Nat) :
    ((observe cam pc now).2 = none ↔
        status_from_people pc = cam.previous_status) ∧
    (cam.previous_status = Vacant → status_from_people pc = Occupied →
      ∃ e, (observe cam pc now).2 = some e ∧ e.time_spent = none) ∧
    (cam.previous_status = Occupied → status_from_people pc = Vacant →
      ∃ e, (observe cam pc now).2 = some e ∧
        e.time_spent = some (dwell_value cam.time_started now)) ∧
    (∀ obs : List (Nat × Nat),
      ((observe_run cam obs).2).length =
        edge_count cam.previous_status (obs.map Prod.fst)) := by
  refine ⟨observe_none_iff cam pc now, ?_, ?_, fun obs => observe_run_length obs cam⟩
  · intro hv ho
    unfold observe handle_status_transitions
    simp [ho, hv]
  · intro ho hv
    unfold observe handle_status_transitions
    simp [ho, hv]

/-- Concrete instance of presence_machine_one_event_per_edge: a fresh
(Vacant) camera observing one person at time 7 publishes exactly one event,
with no dwell duration. -/
theorem presence_machine_one_event_per_edge_witness :
    Camera.init.previous_status = Vacant ∧ status_from_people 1 = Occupied ∧
    (∃ e, (observe Camera.init 1 7).2 = some e ∧ e.time_spent = none) :=
  ⟨by decide, by decide,
    (presence_machine_one_event_per_edge Camera.init 1 7).2.1 (by decide)
      (by decide)⟩

/-- Claim C2, evaluated at the failing input: in sfvis_develop.py nothing
ever sets pause, so two loop iterations inside the same boundary second
(elapsed = 20 at wall clocks 20.0 s and 20.4 s) publish two heartbeats,
while the sfvis.py periodic block (whose regular_post sets pause) publishes
exactly one for the identical trace. -/
theorem develop_heartbeat_not_suppressed :
    heartbeat_seconds develop_periodic_tick Camera.init
        [(20000, 20), (20400, 20)] = [20, 20] ∧
    heartbeat_seconds sfvis_periodic_tick Camera.init
        [(20000, 20), (20400, 20)] = [20] := by
  decide

/-- The sfvis.py scheduler at one iteration per second for 100 seconds
publishes heartbeats exactly at elapsed seconds 20, 40, 60, 80, 100. -/
theorem sfvis_heartbeats_once_per_boundary :
    heartbeat_seconds sfvis_periodic_tick Camera.init
      (one_tick_per_second 100) = [20, 40, 60, 80, 100] := by
  decide

/-- In the sfvis.py periodic block, a boundary hit on an unpaused camera
publishes a heartbeat and leaves the camera paused with the checkpoint at
the current clock: the start of the refractory window. -/
theorem sfvis_fire_sets_pause (cam : Camera) (nowMs elapsed : Nat)
    (hp : cam.pause = false) (h20 : elapsed % 20 = 0) :
    (sfvis_periodic_tick cam nowMs elapsed).1.pause = true ∧
    (sfvis_periodic_tick cam nowMs elapsed).1.checkpoint = some nowMs ∧
    (sfvis_periodic_tick cam nowMs elapsed).2.isSome = true := by
  unfold sfvis_periodic_tick regular_post regular_post_if_needed
  have hfire : ¬cam.pause = true ∧ elapsed % 20 = 0 := by simp [hp, h20]
  rw [if_pos hfire]
  by_cases h60 : elapsed % 60 = 0 <;> simp [h60, Nat.sub_self]

/-- While the sfvis.py camera is paused with a checkpoint less than one
second old, a tick changes nothing and publishes nothing, whatever the
boundary: the refractory window suppresses the modulo check. -/
theorem sfvis_suppression_window (cam : Camera) (nowMs elapsed c : Nat)
    (hp : cam.pause = true) (hc : cam.checkpoint = some c)
    (hlt : nowMs < c + 1000) :
    sfvis_periodic_tick cam nowMs elapsed = (cam, none) := by
  unfold sfvis_periodic_tick
  have hfire : ¬(¬cam.pause = true ∧ elapsed % 20 = 0) := by
    intro h
    rw [hp] at h
    exact h.1 rfl
  rw [if_neg hfire]
  dsimp only
  rw [hc]
  have hrel : ¬ 1000 ≤ nowMs - c := by omega
  simp [hrel]

/-- Claim C3, evaluated at the failing input: 15 sequential inserts with
timestamps 1..15 into an initially empty per-station table.  Under the
unconditional post-insert delete of sfvis_develop.py publish_event the table
ends empty, not with 10 rows; under the count-guarded delete_function of
sfvis.py it ends with exactly the 10 most recent rows 6..15, as the claim
states. -/
theorem develop_retention_drains_table :
    (((List.range 15).map (fun i => i + 1)).foldl develop_insert_retain []
        = []) ∧
    (((List.range 15).map (fun i => i + 1)).foldl sfvis_insert_retain []
        = [6, 7, 8, 9, 10, 11, 12, 13, 14, 15]) := by
  decide

/-- 60 is a multiple of 20, so a 60-second boundary also passes the
modulo-20 gate of the periodic block. -/
theorem mod60_mod20 (elapsed : Nat) (h : elapsed % 60 = 0) :
    elapsed % 20 = 0 := by
  omega

/-- An observation never touches the scheduler pause flag. -/
theorem observe_pause_eq (cam : Camera) (pc now : Nat) :
    ((observe cam pc now).1).pause = cam.pause := by
  unfold observe handle_status_transitions
  cases h : status_from_people pc <;> cases hp : cam.previous_status <;>
    simp [h, hp]

/-- In sfvis_develop.py no operation of the loop ever sets pause: once
false, the flag stays false, so the modulo gate of the periodic block is
always open (regular_post_if_needed there, unlike regular_post in sfvis.py,
does not set it). -/
theorem develop_pause_stays_false (cam : Camera) (op : Op)
    (hp : cam.pause = false) : (apply_op cam op).pause = false := by
  cases op with
  | observation pc now => rw [apply_op, observe_pause_eq]; exact hp
  | tick nowMs elapsed =>
    rw [apply_op]
    unfold develop_periodic_tick regular_post_if_needed
    by_cases hfire : ¬cam.pause = true ∧ elapsed % 20 = 0
    · rw [if_pos hfire]
      by_cases h60 : elapsed % 60 = 0 <;> simp [h60, hp, Nat.sub_self]
    · rw [if_neg hfire]
      dsimp only
      rcases hcp : cam.checkpoint with _ | c
      · dsimp only
        exact hp
      · dsimp only
        split
        · rfl
        · exact hp

/-- Claim C4: on a scheduler tick at a 60-second boundary (its gate open:
pause is false, and a multiple of 60 passes the modulo-20 gate), the rollup
runs and performs exactly presence_total += presence_rate, presence_60 :=
presence_rate, presence_rate := 0, before the heartbeat is built, so the
heartbeat published on the same tick already carries the new snapshot and
the increased total.  In sfvis_develop.py the gate is open on every tick:
pause can never become true, as the first conjunct records. -/
theorem rollup_at_60_boundary (cam : Camera) (nowMs elapsed : Nat)
    (hp : cam.pause = false) (h60 : elapsed % 60 = 0) :
    (∀ (c2 : Camera) (op : Op), c2.pause = false →
        (apply_op c2 op).pause = false) ∧
    ((develop_periodic_tick cam nowMs elapsed).1.presence_total
        = cam.presence_total + cam.presence_rate) ∧
    ((develop_periodic_tick cam nowMs elapsed).1.presence_60
        = cam.presence_rate) ∧
    ((develop_periodic_tick cam nowMs elapsed).1.presence_rate = 0) ∧
    ((develop_periodic_tick cam nowMs elapsed).2.map Event.presence_rate
        = some cam.presence_rate) ∧
    ((develop_periodic_tick cam nowMs elapsed).2.map Event.presence_total
        = some (cam.presence_total + cam.presence_rate)) := by
  have h20 := mod60_mod20 elapsed h60
  have hfire : ¬cam.pause = true ∧ elapsed % 20 = 0 := by simp [hp, h20]
  refine ⟨fun c2 op => develop_pause_stays_false c2 op, ?_⟩
  unfold develop_periodic_tick regular_post_if_needed heartbeat_event
  rw [if_pos hfire]
  simp [h60, Nat.sub_self]

/-- Concrete instance of rollup_at_60_boundary: with presence_rate = 3 at
elapsed second 60, the tick raises presence_total by 3 and resets
presence_rate to 0. -/
theorem rollup_at_60_boundary_witness :
    ({ Camera.init with presence_rate := 3 } : Camera).pause = false ∧
    60 % 60 = 0 ∧
    ((develop_periodic_tick { Camera.init with presence_rate := 3 } 60000
          60).1.presence_total = 0 + 3 ∧
      (develop_periodic_tick { Camera.init with presence_rate := 3 } 60000
          60).1.presence_rate = 0) :=
  ⟨by decide, by decide,
    ⟨(rollup_at_60_boundary { Camera.init with presence_rate := 3 } 60000 60
        (by decide) (by decide)).2.1,
      (rollup_at_60_boundary { Camera.init with presence_rate := 3 } 60000 60
        (by decide) (by decide)).2.2.2.1⟩⟩

/-- The event returned by regular_post_if_needed is the heartbeat built
from the post-rollup camera state. -/
theorem rpin_snd (cam : Camera) (nowMs elapsed : Nat) :
    (regular_post_if_needed cam nowMs elapsed).2
      = heartbeat_event (regular_post_if_needed cam nowMs elapsed).1 nowMs := by
  unfold regular_post_if_needed
  by_cases h60 : elapsed % 60 = 0 <;> simp [h60]

/-- A periodic tick publishes either nothing or a heartbeat_event. -/
theorem develop_tick_snd (cam : Camera) (nowMs elapsed : Nat) :
    (develop_periodic_tick cam nowMs elapsed).2 = none ∨
    ∃ cam' : Camera, (develop_periodic_tick cam nowMs elapsed).2
        = some (heartbeat_event cam' nowMs) := by
  unfold develop_periodic_tick
  by_cases hfire : ¬cam.pause = true ∧ elapsed % 20 = 0
  · right
    rw [if_pos hfire]
    rcases h : regular_post_if_needed { cam with checkpoint := some nowMs }
        nowMs elapsed with ⟨cam2, ev⟩
    refine ⟨cam2, ?_⟩
    have hev : ev = heartbeat_event cam2 nowMs := by
      have h2 := rpin_snd { cam with checkpoint := some nowMs } nowMs elapsed
      rw [h] at h2
      exact h2
    dsimp only
    rw [h]
    dsimp only
    rw [hev]
  · left
    rw [if_neg hfire]

/-- Claim C8: every heartbeat row carries no dwell duration, its
Presence_Change_Rate column equals the presence_60 snapshot held by the
camera when the row is built (unchanged by the heartbeat itself, and
untouched outside 60-second boundaries, so it is the value snapshotted at
the most recent rollup), and its Presence_Change_Total column equals the
current presence_total; heartbeats published by the periodic block carry no
dwell duration either. -/
theorem heartbeat_payload (cam : Camera) (nowMs elapsed : Nat) :
    ((regular_post_if_needed cam nowMs elapsed).2.time_spent = none) ∧
    ((regular_post_if_needed cam nowMs elapsed).2.presence_rate
        = (regular_post_if_needed cam nowMs elapsed).1.presence_60) ∧
    ((regular_post_if_needed cam nowMs elapsed).2.presence_total
        = (regular_post_if_needed cam nowMs elapsed).1.presence_total) ∧
    (elapsed % 60 ≠ 0 →
      (regular_post_if_needed cam nowMs elapsed).1.presence_60
          = cam.presence_60 ∧
      (regular_post_if_needed cam nowMs elapsed).2.presence_rate
          = cam.presence_60) ∧
    (∀ e, (develop_periodic_tick cam nowMs elapsed).2 = some e →
      e.time_spent = none) := by
  refine ⟨?_, ?_, ?_, ?_, ?_⟩
  · unfold regular_post_if_needed heartbeat_event
    by_cases h60 : elapsed % 60 = 0 <;> simp [h60]
  · unfold regular_post_if_needed heartbeat_event
    by_cases h60 : elapsed % 60 = 0 <;> simp [h60]
  · unfold regular_post_if_needed heartbeat_event
    by_cases h60 : elapsed % 60 = 0 <;> simp [h60]
  · intro h60
    unfold regular_post_if_needed heartbeat_event
    simp [h60]
  · intro e he
    rcases develop_tick_snd cam nowMs elapsed with h | ⟨cam', h⟩
    · rw [h] at he
      cases he
    · rw [h] at he
      cases he
      rfl

/-- Concrete instance of heartbeat_payload: off a rollup boundary (elapsed
20), the heartbeat reuses the stored snapshot unchanged. -/
theorem heartbeat_payload_witness :
    (20 % 60 ≠ 0) ∧
    ((regular_post_if_needed
          { Camera.init with presence_60 := 5, presence_total := 7 } 20000
          20).1.presence_60
        = ({ Camera.init with presence_60 := 5, presence_total := 7 } :
            Camera).presence_60 ∧
      (regular_post_if_needed
          { Camera.init with presence_60 := 5, presence_total := 7 } 20000
          20).2.presence_rate
        = ({ Camera.init with presence_60 := 5, presence_total := 7 } :
            Camera).presence_60) ∧
    (regular_post_if_needed
        { Camera.init with presence_60 := 5, presence_total := 7 } 20000
        20).2.time_spent = none :=
  ⟨by decide,
    (heartbeat_payload
        { Camera.init with presence_60 := 5, presence_total := 7 } 20000
        20).2.2.2.1 (by decide),
    (heartbeat_payload
        { Camera.init with presence_60 := 5, presence_total := 7 } 20000
        20).1⟩

/-- A scheduler tick never decreases presence_total. -/
theorem develop_tick_total_ge (cam : Camera) (nowMs elapsed : Nat) :
    cam.presence_total
      ≤ (develop_periodic_tick cam nowMs elapsed).1.presence_total := by
  unfold develop_periodic_tick regular_post_if_needed
  by_cases hfire : ¬cam.pause = true ∧ elapsed % 20 = 0
  · rw [if_pos hfire]
    by_cases h60 : elapsed % 60 = 0 <;> simp [h60, Nat.sub_self]
  · rw [if_neg hfire]
    dsimp only
    rcases hcp : cam.checkpoint with _ | c
    · dsimp only
      exact Nat.le_refl _
    · dsimp only
      split <;> simp

/-- Claim C9: presence_total is non-decreasing across any run: every single
operation of the loop (a state-machine observation or a scheduler tick)
leaves it unchanged or larger, and hence so does every sequence of
operations. -/
theorem presence_total_monotone :
    (∀ (cam : Camera) (op : Op),
        cam.presence_total ≤ (apply_op cam op).presence_total) ∧
    (∀ (ops : List Op) (cam : Camera),
        cam.presence_total ≤ (ops.foldl apply_op cam).presence_total) := by
  have hstep : ∀ (cam : Camera) (op : Op),
      cam.presence_total ≤ (apply_op cam op).presence_total := by
    intro cam op
    cases op with
    | observation pc now =>
      rw [apply_op, observe_total_eq]
    | tick nowMs elapsed =>
      exact develop_tick_total_ge cam nowMs elapsed
  refine ⟨hstep, ?_⟩
  intro ops
  induction ops with
  | nil => intro cam; exact Nat.le_refl _
  | cons op tl ih =>
    intro cam
    exact Nat.le_trans (hstep cam op) (ih (apply_op cam op))

/-- Exact characterisation of a burst of non-blocking enqueues: starting
from a queue holding q (within capacity), the first cap - q.length requests
are appended in order and every further request is dropped and counted. -/
theorem enqueue_all_spec {α : Type} (cap : Nat) :
    ∀ (xs : List α) (q : List α) (d : Nat), q.length ≤ cap →
      enqueue_all cap (q, d) xs
        = (q ++ xs.take (cap - q.length), d + (q.length + xs.length - cap))
  | [], q, d, hq => by
    simp [enqueue_all, Nat.sub_eq_zero_of_le hq]
  | x :: xs, q, d, hq => by
    by_cases hlt : q.length < cap
    · have hstep : enqueue cap (q, d) x = (q ++ [x], d) := by
        simp [enqueue, hlt]
      have hrec := enqueue_all_spec cap xs (q ++ [x]) d
        (by simp; omega)
      have hlen : (q ++ [x]).length = q.length + 1 := by simp
      obtain ⟨n, hn⟩ : ∃ n, cap - q.length = n + 1 :=
        ⟨cap - q.length - 1, by omega⟩
      have hn2 : cap - (q.length + 1) = n := by omega
      calc enqueue_all cap (q, d) (x :: xs)
          = enqueue_all cap (q ++ [x], d) xs := by
            simp [enqueue_all, hstep]
        _ = (q ++ [x] ++ xs.take (cap - (q ++ [x]).length),
              d + ((q ++ [x]).length + xs.length - cap)) := hrec
        _ = (q ++ (x :: xs).take (cap - q.length),
              d + (q.length + (x :: xs).length - cap)) := by
            rw [hlen, hn2, hn, List.take_succ_cons]
            simp only [Prod.mk.injEq, List.length_cons, List.append_assoc,
              List.singleton_append]
            constructor
            · trivial
            · omega
    · have hcap : q.length = cap := by omega
      have hstep : enqueue cap (q, d) x = (q, d + 1) := by
        simp [enqueue, hlt]
      have hrec := enqueue_all_spec cap xs q (d + 1) hq
      calc enqueue_all cap (q, d) (x :: xs)
          = enqueue_all cap (q, d + 1) xs := by
            simp [enqueue_all, hstep]
        _ = (q ++ xs.take (cap - q.length),
              d + 1 + (q.length + xs.length - cap)) := hrec
        _ = (q ++ (x :: xs).take (cap - q.length),
              d + (q.length + (x :: xs).length - cap)) := by
            have h0 : cap - q.length = 0 := by omega
            simp [h0]
            omega

/-- The worker commits exactly the non-failing pre-sentinel requests, in
FIFO order, whatever the initial connection state. -/
theorem db_worker_writes {α : Type} :
    ∀ (items : List (WItem α)) (conn : Bool),
      (db_worker conn items).1 = committed items
  | [], conn => rfl
  | .stop :: rest, conn => rfl
  | .req p f :: rest, conn => by
    cases f <;>
      simp [db_worker, db_worker_step, committed,
        db_worker_writes rest, Option.elim]

/-- The worker processes every pre-sentinel request: the processed count
never depends on which writes fail. -/
theorem db_worker_count {α : Type} :
    ∀ (items : List (WItem α)) (conn : Bool),
      (db_worker conn items).2
        = (items.takeWhile (fun i => !i.isStop)).length
  | [], conn => rfl
  | .stop :: rest, conn => rfl
  | .req p f :: rest, conn => by
    cases f <;>
      simp [db_worker, db_worker_step, List.takeWhile, WItem.isStop,
        db_worker_count rest]

/-- Claim C5: enqueue is non-blocking and drop-on-full: a burst of 1001
requests against the empty capacity-1000 queue accepts exactly the first
1000 in order, drops exactly 1 with a backpressure warning, and the worker
then commits the accepted 1000 to the store in the same FIFO order. -/
theorem backpressure_drop_one (xs : List Nat) (hlen : xs.length = 1001) :
    enqueue_all 1000 ([], 0) xs = (xs.take 1000, 1) ∧
    (db_worker true ((xs.take 1000).map (fun p => WItem.req p false))).1
      = xs.take 1000 := by
  constructor
  · rw [enqueue_all_spec 1000 xs [] 0 (by simp)]
    simp [hlen]
  · rw [db_worker_writes]
    induction xs.take 1000 with
    | nil => rfl
    | cons y ys ih => simp [committed, ih]

/-- Concrete instance of backpressure_drop_one with the burst 0..1000. -/
theorem backpressure_drop_one_witness :
    enqueue_all 1000 ([], 0) (List.range 1001)
        = ((List.range 1001).take 1000, 1) ∧
    (db_worker true
        (((List.range 1001).take 1000).map (fun p => WItem.req p false))).1
      = (List.range 1001).take 1000 :=
  backpressure_drop_one (List.range 1001) (by simp)

/-- Claim C7: for every dequeue trace and every pattern of store errors, the
worker processes every request up to the sentinel (a failed write never
terminates the loop), a store error commits nothing and discards the
connection, the next request lazily reconnects and is written normally, and
the surviving writes reach the store in FIFO order. -/
theorem worker_survives_store_errors :
    (∀ (α : Type) (conn : Bool) (items : List (WItem α)),
        (db_worker conn items).2
          = (items.takeWhile (fun i => !i.isStop)).length) ∧
    (∀ (α : Type) (conn : Bool) (p : α),
        db_worker_step conn p true = (false, none)) ∧
    (∀ (α : Type) (p : α), db_worker_step false p false = (true, some p)) ∧
    (∀ (α : Type) (conn : Bool) (items : List (WItem α)),
        (db_worker conn items).1 = committed items) :=
  ⟨fun _ conn items => db_worker_count items conn,
    fun _ conn p => by cases conn <;> rfl,
    fun _ p => rfl,
    fun _ conn items => db_worker_writes items conn⟩

/-- Claim C6, refuted as stated: publishing with the valid hostId "01" and
the invalid stationId "xy-1" does fail with InvalidIdentifier, but it is
not true that nothing is enqueued — the per-host INSERT has already been
enqueued when the station identifier is rejected, so the event is partially
enqueued. -/
theorem publish_partial_enqueue_counterexample :
    (publish_event_requests "01" "xy-1"
        (heartbeat_event Camera.init 0)).2.isSome = true ∧
    (publish_event_requests "01" "xy-1"
        (heartbeat_event Camera.init 0)).1 ≠ [] := by
  decide

/-- Claim C6 as amended: each identifier is validated against the
[A-Za-z0-9_]+ pattern before being interpolated into statement text (a
string containing any character outside the class fails validation,
whatever it is embedded into); an invalid hostId fails the publish
immediately with nothing enqueued; a valid hostId with an invalid stationId
fails the publish but leaves exactly the already-enqueued per-host INSERT
in the queue; and when both identifiers match the pattern the publish
succeeds, enqueuing all four requests. -/
theorem publish_identifier_validation (hostId stationId : String)
    (row : Event) :
    (∀ s pre : String, (∃ c ∈ s.data, is_word_char c = false) →
      valid_ident (pre ++ s) = false) ∧
    (valid_ident ("sfvis" ++ hostId) = false →
      publish_event_requests hostId stationId row
        = ([], some ("sfvis" ++ hostId))) ∧
    (valid_ident ("sfvis" ++ hostId) = true →
      valid_ident ("sfvis_cam" ++ stationId) = false →
      publish_event_requests hostId stationId row
        = ([Request.insert ("\x60" ++ ("sfvis" ++ hostId) ++ "\x60") row],
            some ("sfvis_cam" ++ stationId))) ∧
    (valid_ident ("sfvis" ++ hostId) = true →
      valid_ident ("sfvis_cam" ++ stationId) = true →
      (publish_event_requests hostId stationId row).2 = none ∧
      (publish_event_requests hostId stationId row).1.length = 4) := by
  refine ⟨?_, ?_, ?_, ?_⟩
  · rintro s pre ⟨c, hc, hw⟩
    unfold valid_ident
    simp only [String.data_append, List.all_append, Bool.and_eq_false_iff]
    right
    right
    exact List.all_eq_false.mpr ⟨c, hc, by simp [hw]⟩
  · intro hbad
    unfold publish_event_requests quote_ident
    rw [hbad]
    rfl
  · intro hok hbad
    unfold publish_event_requests quote_ident
    rw [hok, hbad]
    rfl
  · intro hok1 hok2
    unfold publish_event_requests quote_ident
    rw [hok1, hok2]
    exact ⟨rfl, rfl⟩

/-- Concrete instance of publish_identifier_validation: valid host "01",
invalid station "xy-1" leaves exactly the per-host INSERT enqueued. -/
theorem publish_identifier_validation_witness :
    valid_ident ("sfvis" ++ "01") = true ∧
    valid_ident ("sfvis_cam" ++ "xy-1") = false ∧
    publish_event_requests "01" "xy-1" (heartbeat_event Camera.init 0)
      = ([Request.insert ("\x60" ++ ("sfvis" ++ "01") ++ "\x60")
            (heartbeat_event Camera.init 0)],
          some ("sfvis_cam" ++ "xy-1")) :=
  ⟨by decide, by decide,
    (publish_identifier_validation "01" "xy-1"
        (heartbeat_event Camera.init 0)).2.2.1 (by decide) (by decide)⟩

/-- Claim C10: get_workstation in sfvis.py is defined only for
camera_place 1 and 2, mapping them to 2*sfvis - 1 and 2*sfvis and failing
(unbound local) on every other value, while workstation_for in
sfvis_develop.py is total, mapping every camera_place other than 1 to
2*sfvis. -/
theorem station_mapping_partial_vs_total (s p : Int) :
    get_workstation s 1 = some (s * 2 - 1) ∧
    get_workstation s 2 = some (s * 2) ∧
    (p ≠ 1 → p ≠ 2 → get_workstation s p = none) ∧
    workstation_for s 1 = s * 2 - 1 ∧
    (p ≠ 1 → workstation_for s p = s * 2) := by
  refine ⟨by simp [get_workstation], by simp [get_workstation], ?_, ?_, ?_⟩
  · intro h1 h2
    simp [get_workstation, h1, h2]
  · simp [workstation_for]
  · intro h1
    simp [workstation_for, h1]

/-- Concrete instance of station_mapping_partial_vs_total at sfvis 3,
camera_place 5: the old mapping is undefined, the refactored one returns
6. -/
theorem station_mapping_partial_vs_total_witness :
    (5 : Int) ≠ 1 ∧ (5 : Int) ≠ 2 ∧
    get_workstation 3 5 = none ∧ workstation_for 3 5 = 3 * 2 :=
  ⟨by decide, by decide,
    (station_mapping_partial_vs_total 3 5).2.2.1 (by decide) (by decide),
    (station_mapping_partial_vs_total 3 5).2.2.2.2 (by decide)⟩

end SfWeldVision
